import Mathlib

/-!
Verification development for the Kindle-Notion repository (src/main.py).

The source is a single Python file whose core is the class
`KindleHighlights` with three pieces of logic:

* `_parse_books`   - a line-based HTML repair pass ("Markup Normalizer"),
* `_extract_highlights` - a BeautifulSoup-based extraction pass,
* `_create_enid`   - derivation of an identifier from a highlight URI.

We embed them shallowly.  Python strings are modelled as `List Char`
(`Str` below), so that Python's `split`, `replace`, `strip`, substring
tests and joins become executable list functions with exactly the
Python semantics.  Python exceptions are modelled by `Except PyError`.

Two notes on fidelity, both visible in the source text:

* `_create_enid` contains `urllib.parse(huri)` - under Python 3 this
  calls the *module* object and is an unconditional `TypeError`.  The
  function's own docstring ("kindle://book?action=open&... will
  return... B004TP29C44063"), the commented-out `import urlparse`, and
  the Python-2 ancestry of the file make the intent unambiguous:
  `urllib.parse.urlparse(huri)`.  We model that intent (`uriQuery`).
* `_parse_books` calls `.next()` on a generator - a Python-2 method
  (under Python 3 the line raises `AttributeError` unconditionally,
  still aborting the run).  The intent, made explicit by the
  `except StopIteration` handler around it, is "first index whose line
  matches, `StopIteration` if none"; we model that intent
  (`firstMarkerIdx`, error `PyError.stopIteration`).

The extraction pass goes through BeautifulSoup with the stdlib
`html.parser` tree builder.  The fragment of HTML involved (plain
tags, double-quoted attributes, text, no comments/entities/void
elements) is modelled by a small tokenizer and the BeautifulSoup
stack tree-builder (`_popToTag` semantics: an end tag pops open
elements until the nearest one of the same name, inclusively;
elements left open at end of input are closed implicitly), and the
BeautifulSoup accessors used by the source (`find_all(name, class_)`,
`find`, `.string`, `.nextSibling`, `.attrs[...]`) are modelled on the
resulting tree.
-/

set_option maxRecDepth 20000

/-- Python strings, modelled as lists of characters. -/
abbrev Str := List Char

/-- Conversion from a Lean string literal. -/
def str (s : String) : Str := s.toList

/-- Errors raised by the modelled Python code. -/
inductive PyError where
  /-- `StopIteration` from the exhausted generator in `_parse_books`
  (the spec's `MalformedInput`). -/
  | stopIteration
  /-- `IndexError` from `split(...)[i]` in `_create_enid`
  (the spec's `MalformedLink`). -/
  | indexError
  /-- `AttributeError` from `.string` / `.replace` / `.attrs` on `None`
  or on a text node (the spec's `StructureError`).  Note the Python
  exception carries no book or highlight index. -/
  | attributeError
  /-- `KeyError` from `attrs['href']` on a tag with no `href`. -/
  | keyError
deriving DecidableEq, Repr

/-- Index of the first occurrence of `sep` in `s`, if any
(the scan Python's `str.split` / `str.replace` perform). -/
def findSub (sep s : Str) : Option Nat :=
  (List.range (s.length + 1)).find? (fun i => sep.isPrefixOf (s.drop i))

/-- Fuel-driven worker for `pySplitOn`; the fuel only guarantees
termination, `s.length + 1` is always enough for a nonempty `sep`. -/
def pySplitAux (sep : Str) : Nat → Str → List Str
  | 0, s => [s]
  | fuel + 1, s =>
    match findSub sep s with
    | none => [s]
    | some i => s.take i :: pySplitAux sep fuel (s.drop (i + sep.length))

/-- Python `s.split(sep)` for a nonempty separator: split at each
leftmost, non-overlapping occurrence.  `"".split(sep) == [""]`. -/
def pySplitOn (sep s : Str) : List Str := pySplitAux sep (s.length + 1) s

/-- Python `s.replace(old, new)` (all occurrences), via the identity
`s.replace(old, new) == new.join(s.split(old))`. -/
def pyReplace (old new s : Str) : Str := List.intercalate new (pySplitOn old s)

/-- Python `s.strip()`: remove leading and trailing whitespace. -/
def pyStrip (s : Str) : Str :=
  ((s.dropWhile Char.isWhitespace).reverse.dropWhile Char.isWhitespace).reverse

/-- Python `sub in s`: substring test. -/
def containsSub (sub s : Str) : Bool := s.tails.any (fun t => sub.isPrefixOf t)

/-- The `query` component of `urllib.parse.urlparse(huri)`: the part of
the URI after the first `?` (with any `#`-fragment, split off first,
excluded; empty when there is no `?`).  This models the evident intent
of the source's `urllib.parse(huri).query` (see the file comment). -/
def uriQuery (huri : Str) : Str :=
  let noFrag :=
    match findSub (str "#") huri with
    | none => huri
    | some j => huri.take j
  match findSub (str "?") noFrag with
  | none => []
  | some i => noFrag.drop (i + 1)

/-- Model of `KindleHighlights._create_enid` (src/main.py lines 59-77): the ID of
a highlight URI is `query.split('&')[1].split('=')[1]` concatenated
with `query.split('&')[2].split('=')[1]` - a *positional* extraction
of the second and third `&`-separated query fields.  A missing list
index is Python's `IndexError`. -/
def create_enid (huri : Str) : Except PyError Str :=
  match (pySplitOn (str "&") (uriQuery huri))[1]? with
  | none => Except.error PyError.indexError
  | some f1 =>
    match (pySplitOn (str "=") f1)[1]? with
    | none => Except.error PyError.indexError
    | some asin =>
      match (pySplitOn (str "&") (uriQuery huri))[2]? with
      | none => Except.error PyError.indexError
      | some f2 =>
        match (pySplitOn (str "=") f2)[1]? with
        | none => Except.error PyError.indexError
        | some loc => Except.ok (asin ++ loc)

/-- The book-header marker `_parse_books` rewrites on
(`'class="bookMain yourHighlightsHeader"' in line`). -/
def bmMarker : Str := str "class=\"bookMain yourHighlightsHeader\""

/-- The top-level container marker `_parse_books` searches for
(the regex `.*<div id="allHighlightedBooks">.*` is a substring test). -/
def allHLMarker : Str := str "<div id=\"allHighlightedBooks\">"

/-- The closing-tag token removed from the marker line. -/
def divClose : Str := str "</div>"

/-- The highlight-container opening tag appended after each header. -/
def hcOpen : Str := str "<div class=\"highlightColumn\">"

/-- The header-rewrite rule of `_parse_books` (src/main.py lines 95-97):
a line containing the book-header marker becomes
`'</div>' + line + '<div class="highlightColumn">'`. -/
def headerRewrite (line : Str) : Str :=
  if containsSub bmMarker line then divClose ++ line ++ hcOpen else line

/-- The generator-with-`.next()` search of `_parse_books`
(src/main.py lines 100-102): index of the first line containing the
top-level container marker. -/
def firstMarkerIdx (i : Nat) : List Str → Option Nat
  | [] => none
  | l :: ls => if containsSub allHLMarker l then some i else firstMarkerIdx (i + 1) ls

/-- Model of `KindleHighlights._parse_books` (src/main.py lines 86-110): split on
newlines, apply the header rewrite to every line, find the first line
containing the top-level container marker (`StopIteration` if none),
remove the `'</div>'` occurrences of that line via `str.replace`, and
join everything back with `''.join`. -/
def parse_books (html : Str) : Except PyError Str :=
  let markup := (pySplitOn (str "\n") html).map headerRewrite
  match firstMarkerIdx 0 markup with
  | none => Except.error PyError.stopIteration
  | some i => Except.ok (markup.set i (pyReplace divClose [] (markup.getD i []))).flatten

/-! ## The parsed-HTML model (BeautifulSoup with the `html.parser` builder) -/

/-- A node of the BeautifulSoup tree: a `Tag` (name, attributes,
contents) or a `NavigableString`. -/
inductive Node where
  | tag : Str → List (Str × Str) → List Node → Node
  | text : Str → Node

/-- Tokens produced by the `html.parser` tokenizer on the fragment of
HTML the program handles. -/
inductive Tok where
  | openT : Str → List (Str × Str) → Tok
  | closeT : Str → Tok
  | textT : Str → Tok

/-- Attribute parsing of an open tag: `name="value"` pairs separated by
spaces, up to the closing `>`.  Fuel-driven; `s.length + 1` is enough. -/
def readAttrs : Nat → Str → (List (Str × Str) × Str)
  | 0, s => ([], s)
  | fuel + 1, s =>
    let s1 := s.dropWhile (fun c => c = ' ')
    match s1 with
    | [] => ([], [])
    | '>' :: rest => ([], rest)
    | _ =>
      let nm := s1.takeWhile (fun c => c != '=' && c != '>' && c != ' ')
      let s2 := s1.drop nm.length
      match s2 with
      | '=' :: '\x22' :: r =>
        let v := r.takeWhile (fun c => c != '\x22')
        let (attrs, rest) := readAttrs fuel (r.drop (v.length + 1))
        ((nm, v) :: attrs, rest)
      | _ =>
        let (attrs, rest) := readAttrs fuel s2
        ((nm, []) :: attrs, rest)

/-- The tokenizer: text runs, `</name>` end tags, `<name attrs>` start
tags.  Fuel-driven; every step consumes at least one character, so
`s.length + 1` fuel is always enough. -/
def tokenizeAux : Nat → Str → List Tok
  | 0, _ => []
  | _, [] => []
  | fuel + 1, '<' :: '/' :: rest =>
    let nm := rest.takeWhile (fun c => c != '>')
    Tok.closeT nm :: tokenizeAux fuel (rest.drop (nm.length + 1))
  | fuel + 1, '<' :: rest =>
    let nm := rest.takeWhile (fun c => c != ' ' && c != '>')
    let (attrs, r2) := readAttrs (rest.length + 1) (rest.drop nm.length)
    Tok.openT nm attrs :: tokenizeAux fuel r2
  | fuel + 1, s =>
    let t := s.takeWhile (fun c => c != '<')
    Tok.textT t :: tokenizeAux fuel (s.drop t.length)

/-- An element that has been opened but not yet closed, with the
contents accumulated for it so far. -/
structure OpenElt where
  name : Str
  attrs : List (Str × Str)
  children : List Node

/-- Worker for `closeToTag`: `nd` is a node that has just been popped
and must be attached to the element below it; that element is then
examined in turn (popped as well unless it is the one being closed). -/
def closeDeeper (nm : Str) : Node → List OpenElt → List Node → (List OpenElt × List Node)
  | nd, [], root => ([], root ++ [nd])
  | nd, f :: rest, root =>
    let nd2 := Node.tag f.name f.attrs (f.children ++ [nd])
    if f.name = nm then
      match rest with
      | [] => ([], root ++ [nd2])
      | g :: gs => ({ g with children := g.children ++ [nd2] } :: gs, root)
    else closeDeeper nm nd2 rest root

/-- BeautifulSoup's `_popToTag` on an end tag: pop open elements
(attaching each to its parent) until one with the matching name has
been popped; if no open element matches, everything is popped. -/
def closeToTag (nm : Str) : List OpenElt → List Node → (List OpenElt × List Node)
  | [], root => ([], root)
  | e :: rest, root =>
    let nd := Node.tag e.name e.attrs e.children
    if e.name = nm then
      match rest with
      | [] => ([], root ++ [nd])
      | f :: fs => ({ f with children := f.children ++ [nd] } :: fs, root)
    else closeDeeper nm nd rest root

/-- Worker for `finishStack`: attach `nd` below and keep closing. -/
def finishDeeper : Node → List OpenElt → List Node → List Node
  | nd, [], root => root ++ [nd]
  | nd, f :: rest, root => finishDeeper (Node.tag f.name f.attrs (f.children ++ [nd])) rest root

/-- End of input: close every element still open. -/
def finishStack : List OpenElt → List Node → List Node
  | [], root => root
  | e :: rest, root => finishDeeper (Node.tag e.name e.attrs e.children) rest root

/-- The tree builder: feed the tokens through the open-element stack. -/
def buildAux : List Tok → List OpenElt → List Node → List Node
  | [], stack, root => finishStack stack root
  | Tok.textT s :: ts, [], root => buildAux ts [] (root ++ [Node.text s])
  | Tok.textT s :: ts, e :: rest, root =>
    buildAux ts ({ e with children := e.children ++ [Node.text s] } :: rest) root
  | Tok.openT n a :: ts, stack, root =>
    buildAux ts ({ name := n, attrs := a, children := [] } :: stack) root
  | Tok.closeT n :: ts, stack, root =>
    let (st1, r1) := closeToTag n stack root
    buildAux ts st1 r1

/-- Model of `BeautifulSoup(html, 'html.parser')`: the parsed document, as a root
tag holding the top-level nodes. -/
def parseHTML (s : Str) : Node :=
  Node.tag (str "[document]") [] (buildAux (tokenizeAux (s.length + 1) s) [] [])

mutual

/-- All descendants of a node in document (pre-)order - the elements a
BeautifulSoup `find_all` / `find` on that node iterates over. -/
def Node.descendants : Node → List Node
  | Node.text _ => []
  | Node.tag _ _ cs => descendantsList cs

/-- Descendants of a forest, in document order. -/
def descendantsList : List Node → List Node
  | [] => []
  | c :: rest => c :: (Node.descendants c ++ descendantsList rest)

end

/-- Look an attribute up in a tag's attribute list (`attrs[...]`). -/
def attrLookup (k : Str) : List (Str × Str) → Option Str
  | [] => none
  | (k1, v) :: rest => if k1 = k then some v else attrLookup k rest

/-- The multi-valued `class` attribute of a tag, as BeautifulSoup's
builder stores it: the attribute value split on spaces. -/
def classList (attrs : List (Str × Str)) : List Str :=
  match attrLookup (str "class") attrs with
  | none => []
  | some v => pySplitOn (str " ") v

/-- The filter `find_all(tagName, cls)` applies: a tag with the given
name whose `class` list contains `cls`. -/
def hasTagClass (tagName cls : Str) : Node → Bool
  | Node.tag n attrs _ => n = tagName && (classList attrs).contains cls
  | Node.text _ => false

/-- Model of `node.find_all(tagName, cls)`: matching descendants in
document order. -/
def findAll (p : Node → Bool) (n : Node) : List Node := (Node.descendants n).filter p

/-- Model of `node.find(tagName, cls)`: the first matching descendant,
or `None`. -/
def findFirst (p : Node → Bool) (n : Node) : Option Node := (findAll p n).head?

/-- BeautifulSoup `.string`: the single `NavigableString` below the
node if its contents chain down through single children to one,
otherwise `None`. -/
def Node.string : Node → Option Str
  | Node.text s => some s
  | Node.tag _ _ [c] => Node.string c
  | Node.tag _ _ _ => none

/-- Filter used by `find_all('div', 'bookMain')`. -/
def isBookMain : Node → Bool := hasTagClass (str "div") (str "bookMain")

/-- Filter used by `find('span', 'title')`. -/
def isTitleSpan : Node → Bool := hasTagClass (str "span") (str "title")

/-- Filter used by `find('span', 'author')`. -/
def isAuthorSpan : Node → Bool := hasTagClass (str "span") (str "author")

/-- Filter used by `find_all('span', 'highlight')`. -/
def isHighlightSpan : Node → Bool := hasTagClass (str "span") (str "highlight")

mutual

/-- The source pairs every highlight found by
`book.find_all('span', 'highlight')` with its `nextSibling`.  Since our
tree nodes carry no parent pointers, we collect the two together: the
highlights of a forest in document order, each with the node that
follows it in its parent's contents (`None` for a last child) - exactly
`find_all`'s traversal plus `.nextSibling`. -/
def hlPairsList : List Node → List (Node × Option Node)
  | [] => []
  | c :: rest =>
    (if isHighlightSpan c then [(c, rest.head?)] else [])
      ++ hlPairsNode c ++ hlPairsList rest

/-- Highlight/next-sibling pairs below a node, in document order. -/
def hlPairsNode : Node → List (Node × Option Node)
  | Node.text _ => []
  | Node.tag _ _ cs => hlPairsList cs

end

/-- Decidable equality of `Except` results, so that concrete runs of
the modelled functions can be checked by evaluation. -/
instance {ε α : Type} [DecidableEq ε] [DecidableEq α] : DecidableEq (Except ε α) := fun a b =>
  match a, b with
  | Except.ok x, Except.ok y =>
    if h : x = y then isTrue (by rw [h]) else isFalse (fun hc => h (Except.ok.inj hc))
  | Except.error x, Except.error y =>
    if h : x = y then isTrue (by rw [h]) else isFalse (fun hc => h (Except.error.inj hc))
  | Except.ok _, Except.error _ => isFalse (fun hc => Except.noConfusion hc)
  | Except.error _, Except.ok _ => isFalse (fun hc => Except.noConfusion hc)

/-- One extracted highlight record (the dict built in
`_extract_highlights`, src/main.py lines 135-144). -/
structure Highlight where
  book_title : Str
  book_author : Str
  text : Option Str
  link : Str
  id : Str
deriving DecidableEq, Repr

/-- Construction of one record (src/main.py lines 135-143):
`link = highlight.nextSibling.attrs['href']` - `AttributeError` when
there is no next sibling or it is a `NavigableString`, `KeyError` when
it has no `href` - and `id = _create_enid(link)`; the `text` field is
`highlight.string`, stored as-is (possibly `None`). -/
def mkRecord (bt ba : Str) (hl : Node) (sib : Option Node) : Except PyError Highlight :=
  match sib with
  | none => Except.error PyError.attributeError
  | some (Node.text _) => Except.error PyError.attributeError
  | some (Node.tag _ attrs _) =>
    match attrLookup (str "href") attrs with
    | none => Except.error PyError.keyError
    | some link =>
      match create_enid link with
      | Except.error e => Except.error e
      | Except.ok hid =>
        Except.ok { book_title := bt, book_author := ba, text := Node.string hl,
                    link := link, id := hid }

/-- The inner loop of `_extract_highlights` (lines 134-144): one record
appended per highlight, in order; an exception abandons the whole
extraction. -/
def extractRecords (bt ba : Str) : List (Node × Option Node) → Except PyError (List Highlight)
  | [] => Except.ok []
  | p :: ps =>
    match mkRecord bt ba p.1 p.2 with
    | Except.error e => Except.error e
    | Except.ok r =>
      match extractRecords bt ba ps with
      | Except.error e => Except.error e
      | Except.ok rs => Except.ok (r :: rs)

/-- The per-book body of `_extract_highlights` (lines 127-144):
`book.find('span', 'title').string.strip()` - `.string` on `None`
(no title element) and `.strip` on `None` (no single text below it)
are `AttributeError` - then
`book.find('span', 'author').string.replace('by', '').strip()`
(note: `str.replace` removes *every* occurrence of `'by'`), then one
record per highlight of the book. -/
def extract_book (book : Node) : Except PyError (List Highlight) :=
  match findFirst isTitleSpan book with
  | none => Except.error PyError.attributeError
  | some t =>
    match Node.string t with
    | none => Except.error PyError.attributeError
    | some ts =>
      match findFirst isAuthorSpan book with
      | none => Except.error PyError.attributeError
      | some a =>
        match Node.string a with
        | none => Except.error PyError.attributeError
        | some aStr =>
          extractRecords (pyStrip ts) (pyStrip (pyReplace (str "by") [] aStr))
            (hlPairsNode book)

/-- The outer loop of `_extract_highlights`: books in document order,
their records concatenated. -/
def extractBooks : List Node → Except PyError (List Highlight)
  | [] => Except.ok []
  | b :: bs =>
    match extract_book b with
    | Except.error e => Except.error e
    | Except.ok l =>
      match extractBooks bs with
      | Except.error e => Except.error e
      | Except.ok ls => Except.ok (l ++ ls)

/-- Model of `KindleHighlights._extract_highlights` (src/main.py lines 113-146):
`soup.find_all('div', 'bookMain')`, then the per-book extraction. -/
def extract_highlights (soup : Node) : Except PyError (List Highlight) :=
  extractBooks (findAll isBookMain soup)

/-- Model of `KindleHighlights._get_all_highlights` (src/main.py lines 80-83),
with the file contents as input: normalize, parse, extract. -/
def get_all_highlights (html_doc : Str) : Except PyError (List Highlight) :=
  match parse_books html_doc with
  | Except.error e => Except.error e
  | Except.ok parsed => extract_highlights (parseHTML parsed)

/-! ## Concrete documents and records used to instantiate the claims -/

/-- A `span` element of the given class with a single text child. -/
def sp (cls txt : String) : Node :=
  Node.tag (str "span") [(str "class", str cls)] [Node.text (str txt)]

/-- A `span` element of the given class with no text node. -/
def spE (cls : String) : Node := Node.tag (str "span") [(str "class", str cls)] []

/-- An `a` element with an `href` attribute. -/
def aref (u : String) : Node := Node.tag (str "a") [(str "href", str u)] []

/-- A `div class="bookMain yourHighlightsHeader"` element. -/
def bookDiv (cs : List Node) : Node :=
  Node.tag (str "div") [(str "class", str "bookMain yourHighlightsHeader")] cs

/-- A document root holding top-level nodes. -/
def docRoot (cs : List Node) : Node := Node.tag (str "[document]") [] cs

/-- A document with no line containing the top-level container marker. -/
def c2doc : Str := str "<html>\n<p>hi</p>\n</html>"

/-- A book element with no nested title element. -/
def c3book : Node := bookDiv [sp "author" "by X"]

/-- A complete book element (title and author, no highlights). -/
def c3good : Node := bookDiv [sp "title" "T", sp "author" "by A"]

/-- The book *lacking a title* is the first of two books here. -/
def c3docA : Node := docRoot [c3book, c3good]

/-- The book *lacking a title* is the second of two books here. -/
def c3docB : Node := docRoot [c3good, c3book]

/-- A single-book document whose only book lacks a title element. -/
def c3soup : Node := docRoot [c3book]

/-- Worked two-book raw export: book `T1` with highlights `h1, h2`,
book `T2` with highlight `h3`, in document order. -/
def c6raw : Str := str ("<div id=\"allHighlightedBooks\"></div>\n" ++
  "<div class=\"bookMain yourHighlightsHeader\">\n" ++
  "<span class=\"title\">T1</span>\n" ++
  "<span class=\"author\">by A1</span>\n" ++
  "</div>\n" ++
  "<span class=\"highlight\">h1</span><a href=\"?a=0&b=1&c=2\"></a>\n" ++
  "<span class=\"highlight\">h2</span><a href=\"?a=0&b=3&c=4\"></a>\n" ++
  "<div class=\"bookMain yourHighlightsHeader\">\n" ++
  "<span class=\"title\">T2</span>\n" ++
  "<span class=\"author\">by A2</span>\n" ++
  "</div>\n" ++
  "<span class=\"highlight\">h3</span><a href=\"?a=0&b=5&c=6\"></a>\n" ++
  "</div>")

/-- The normalizer's output on `c6raw` (a single line: `''.join`). -/
def c6norm : Str := str ("<div id=\"allHighlightedBooks\"></div>" ++
  "<div class=\"bookMain yourHighlightsHeader\"><div class=\"highlightColumn\">" ++
  "<span class=\"title\">T1</span><span class=\"author\">by A1</span></div>" ++
  "<span class=\"highlight\">h1</span><a href=\"?a=0&b=1&c=2\"></a>" ++
  "<span class=\"highlight\">h2</span><a href=\"?a=0&b=3&c=4\"></a></div>" ++
  "<div class=\"bookMain yourHighlightsHeader\"><div class=\"highlightColumn\">" ++
  "<span class=\"title\">T2</span><span class=\"author\">by A2</span></div>" ++
  "<span class=\"highlight\">h3</span><a href=\"?a=0&b=5&c=6\"></a></div>")

/-- The normalizer's output on `c6norm` (its own previous output): the
whole document is one line containing both markers, so the header
rewrite wraps all of it and the marker-line cleanup then deletes every
`</div>` token of the document. -/
def c6renorm : Str := str ("<div id=\"allHighlightedBooks\">" ++
  "<div class=\"bookMain yourHighlightsHeader\"><div class=\"highlightColumn\">" ++
  "<span class=\"title\">T1</span><span class=\"author\">by A1</span>" ++
  "<span class=\"highlight\">h1</span><a href=\"?a=0&b=1&c=2\"></a>" ++
  "<span class=\"highlight\">h2</span><a href=\"?a=0&b=3&c=4\"></a>" ++
  "<div class=\"bookMain yourHighlightsHeader\"><div class=\"highlightColumn\">" ++
  "<span class=\"title\">T2</span><span class=\"author\">by A2</span>" ++
  "<span class=\"highlight\">h3</span><a href=\"?a=0&b=5&c=6\"></a>" ++
  "<div class=\"highlightColumn\">")

/-- Record for `h1` under book `T1`. -/
def c6rec1 : Highlight :=
  ⟨str "T1", str "A1", some (str "h1"), str "?a=0&b=1&c=2", str "12"⟩

/-- Record for `h2` under book `T1`. -/
def c6rec2 : Highlight :=
  ⟨str "T1", str "A1", some (str "h2"), str "?a=0&b=3&c=4", str "34"⟩

/-- Record for `h3` under book `T2` (its correct book). -/
def c6rec3 : Highlight :=
  ⟨str "T2", str "A2", some (str "h3"), str "?a=0&b=5&c=6", str "56"⟩

/-- Record for `h3` *misattributed to book `T1`* after re-normalizing. -/
def c6rec3T1 : Highlight :=
  ⟨str "T1", str "A1", some (str "h3"), str "?a=0&b=5&c=6", str "56"⟩

/-- Book `T1` with highlights `h1, h2`, as a parsed tree. -/
def c7b1 : Node := bookDiv [sp "title" "T1", sp "author" "by A1",
  sp "highlight" "h1", aref "?a=0&b=1&c=2", sp "highlight" "h2", aref "?a=0&b=3&c=4"]

/-- Book `T2` with highlight `h3`, as a parsed tree. -/
def c7b2 : Node := bookDiv [sp "title" "T2", sp "author" "by A2",
  sp "highlight" "h3", aref "?a=0&b=5&c=6"]

/-- Two-book document `B1 = [h1, h2]`, `B2 = [h3]`. -/
def c7soup : Node := docRoot [c7b1, c7b2]

/-- Record for `h1`. -/
def c7rec1 : Highlight :=
  ⟨str "T1", str "A1", some (str "h1"), str "?a=0&b=1&c=2", str "12"⟩

/-- Record for `h2`. -/
def c7rec2 : Highlight :=
  ⟨str "T1", str "A1", some (str "h2"), str "?a=0&b=3&c=4", str "34"⟩

/-- Record for `h3`. -/
def c7rec3 : Highlight :=
  ⟨str "T2", str "A2", some (str "h3"), str "?a=0&b=5&c=6", str "56"⟩

/-- A highlight span whose only text node is whitespace-only. -/
def c8hl : Node := Node.tag (str "span") [(str "class", str "highlight")] [Node.text (str " ")]

/-- A highlight span with no text node at all. -/
def c8hl2 : Node := spE "highlight"

/-- The link sibling used with the above. -/
def c8sib : Node := aref "?a=0&b=1&c=2"

/-- A one-book document whose single highlight has whitespace-only text. -/
def c8soup : Node := docRoot [bookDiv [sp "title" "T", sp "author" "by A", c8hl, c8sib]]

/-- The record extracted from `c8soup`: its text is the whitespace
string, as-is. -/
def c8rec : Highlight := ⟨str "T", str "A", some (str " "), str "?a=0&b=1&c=2", str "12"⟩

/-- A one-book document with author text `"by  Jane Doe "`. -/
def c9jane : Node :=
  docRoot [bookDiv [sp "title" "T", sp "author" "by  Jane Doe ", sp "highlight" "h", aref "?a=0&b=1&c=2"]]

/-- The record extracted from `c9jane`. -/
def c9janeRec : Highlight := ⟨str "T", str "Jane Doe", some (str "h"), str "?a=0&b=1&c=2", str "12"⟩

/-- A one-book document with author text `"by Bobby Tables"` - an
author name that itself contains the substring `"by"`. -/
def c9bobby : Node :=
  docRoot [bookDiv [sp "title" "T", sp "author" "by Bobby Tables", sp "highlight" "h", aref "?a=0&b=1&c=2"]]

/-- The record extracted from `c9bobby`: `str.replace` removed the
`"by"` inside `"Bobby"` too. -/
def c9bobbyRec : Highlight := ⟨str "T", str "Bob Tables", some (str "h"), str "?a=0&b=1&c=2", str "12"⟩

/-- A book with two highlights, for the shared-metadata claim. -/
def c10b : Node := bookDiv [sp "title" "T", sp "author" "by A",
  sp "highlight" "h1", aref "?a=0&b=1&c=2", sp "highlight" "h2", aref "?a=0&b=3&c=4"]

/-- A document holding `c10b` alone. -/
def c10soup : Node := docRoot [c10b]

/-- First record of `c10b`. -/
def c10r1 : Highlight := ⟨str "T", str "A", some (str "h1"), str "?a=0&b=1&c=2", str "12"⟩

/-- Second record of `c10b`. -/
def c10r2 : Highlight := ⟨str "T", str "A", some (str "h2"), str "?a=0&b=3&c=4", str "34"⟩

/-! ## Theorems -/

/-- The `containsSub` test agrees with list-infix. -/
theorem containsSub_iff (sub s : Str) : containsSub sub s = true ↔ sub <:+: s := by
  unfold containsSub
  rw [List.any_eq_true]
  constructor
  · rintro ⟨t, ht, hp⟩
    exact List.infix_iff_prefix_suffix.mpr
      ⟨t, List.isPrefixOf_iff_prefix.mp hp, (List.mem_tails _ _).mp ht⟩
  · intro h
    rcases List.infix_iff_prefix_suffix.mp h with ⟨t, hp, hs⟩
    exact ⟨t, (List.mem_tails _ _).mpr hs, List.isPrefixOf_iff_prefix.mpr hp⟩

/-- The `containsSub` test is `false` on non-substrings. -/
theorem containsSub_eq_false {sub s : Str} (h : ¬ sub <:+: s) : containsSub sub s = false := by
  cases hc : containsSub sub s with
  | false => rfl
  | true => exact absurd ((containsSub_iff sub s).mp hc) h

/-- An infix of `u ++ v` is an infix of `u`, an infix of `v`, or
straddles the boundary: a nonempty suffix of `u` followed by a
nonempty prefix of `v`. -/
theorem infix_append_split {α : Type} {xs u v : List α} (h : xs <:+: u ++ v) :
    xs <:+: u ∨ xs <:+: v ∨
      ∃ x1 x2, xs = x1 ++ x2 ∧ x1 ≠ [] ∧ x2 ≠ [] ∧ x1 <:+ u ∧ x2 <+: v := by
  obtain ⟨s, t, hst⟩ := h
  have hu : (s ++ xs).take u.length ++ t.take (u.length - (s ++ xs).length) = u := by
    rw [← List.take_append_eq_append_take, hst, List.take_left]
  have hv : (s ++ xs).drop u.length ++ t.drop (u.length - (s ++ xs).length) = v := by
    rw [← List.drop_append_eq_append_drop, hst, List.drop_left]
  have hlen : (s ++ xs).length = s.length + xs.length := List.length_append s xs
  rcases le_or_lt (s.length + xs.length) u.length with hA | hA
  · left
    rw [List.take_of_length_le (by omega)] at hu
    exact ⟨s, t.take (u.length - (s ++ xs).length), hu⟩
  · rcases le_or_lt u.length s.length with hB | hB
    · right; left
      have h0 : u.length - (s ++ xs).length = 0 := by omega
      rw [h0, List.drop_zero, List.drop_append_eq_append_drop,
        Nat.sub_eq_zero_of_le hB, List.drop_zero] at hv
      exact ⟨s.drop u.length, t, hv⟩
    · right; right
      have hx1len : (xs.take (u.length - s.length)).length = u.length - s.length := by
        rw [List.length_take, Nat.min_eq_left (by omega)]
      have hx2len : (xs.drop (u.length - s.length)).length = xs.length - (u.length - s.length) :=
        List.length_drop _ _
      refine ⟨xs.take (u.length - s.length), xs.drop (u.length - s.length),
        (List.take_append_drop _ xs).symm, ?_, ?_, ?_, ?_⟩
      · exact List.length_pos.mp (by rw [hx1len]; omega)
      · exact List.length_pos.mp (by rw [hx2len]; omega)
      · refine ⟨s, ?_⟩
        have h0 : u.length - (s ++ xs).length = 0 := by omega
        rw [h0, List.take_zero, List.append_nil, List.take_append_eq_append_take,
          List.take_of_length_le (by omega)] at hu
        exact hu
      · refine ⟨t, ?_⟩
        have h0 : u.length - (s ++ xs).length = 0 := by omega
        rw [h0, List.drop_zero, List.drop_append_eq_append_drop,
          List.drop_of_length_le (by omega), List.nil_append] at hv
        exact hv

/-- Wrapping a line in the header-rewrite affixes cannot create an
occurrence of the top-level container marker: no nonempty suffix of
`'</div>'` starts the marker and no nonempty prefix of
`'<div class="highlightColumn">'` ends it. -/
theorem not_infix_wrap {l : Str} (h : ¬ allHLMarker <:+: l) :
    ¬ allHLMarker <:+: divClose ++ l ++ hcOpen := by
  intro hinf
  rcases infix_append_split hinf with h1 | h2 | ⟨y1, y2, hy, _, hy2, _, hypre⟩
  · rcases infix_append_split h1 with h3 | h4 | ⟨x1, x2, hx, hx1, _, hsuf, _⟩
    · exact absurd h3 (by decide)
    · exact h h4
    · have hx1pre : x1 <+: allHLMarker := ⟨x2, hx.symm⟩
      have hmem : x1 ∈ divClose.tails := (List.mem_tails _ _).mpr hsuf
      have hall : ∀ z ∈ divClose.tails, z = [] ∨ ¬ z <+: allHLMarker := by decide
      rcases hall x1 hmem with h0 | h0
      · exact hx1 h0
      · exact h0 hx1pre
  · exact absurd h2 (by decide)
  · have hy2suf : y2 <:+ allHLMarker := ⟨y1, hy.symm⟩
    have hmem : y2 ∈ hcOpen.inits := (List.mem_inits _ _).mpr hypre
    have hall : ∀ z ∈ hcOpen.inits, z = [] ∨ ¬ z <:+ allHLMarker := by decide
    rcases hall y2 hmem with h0 | h0
    · exact hy2 h0
    · exact h0 hy2suf

/-- The header rewrite preserves "does not contain the top-level
container marker". -/
theorem headerRewrite_no_marker {line : Str} (h : ¬ allHLMarker <:+: line) :
    containsSub allHLMarker (headerRewrite line) = false := by
  unfold headerRewrite
  by_cases hb : containsSub bmMarker line = true
  · rw [if_pos hb]
    exact containsSub_eq_false (not_infix_wrap h)
  · rw [if_neg hb]
    exact containsSub_eq_false h

/-- The marker search fails on a list of marker-free lines. -/
theorem firstMarkerIdx_none {ls : List Str}
    (h : ∀ l ∈ ls, containsSub allHLMarker l = false) :
    ∀ i, firstMarkerIdx i ls = none := by
  induction ls with
  | nil => intro i; rfl
  | cons x xs ih =>
    intro i
    unfold firstMarkerIdx
    rw [h x (List.mem_cons_self x xs)]
    simp only [Bool.false_eq_true, if_false]
    exact ih (fun l hl => h l (List.mem_cons_of_mem x hl)) (i + 1)

/-- C2: an input HTML text in which no line contains the top-level
container marker makes the normalizer fail (`StopIteration`, the
spec's `MalformedInput`), and the full pipeline then stops before any
extraction: it produces the same error and zero records. -/
theorem C2_missing_marker_stops_run (html : Str)
    (h : ∀ line ∈ pySplitOn (str "\n") html, ¬ allHLMarker <:+: line) :
    parse_books html = Except.error PyError.stopIteration ∧
    get_all_highlights html = Except.error PyError.stopIteration := by
  have hidx : firstMarkerIdx 0 ((pySplitOn (str "\n") html).map headerRewrite) = none := by
    apply firstMarkerIdx_none
    intro l hl
    rcases List.mem_map.mp hl with ⟨l0, hl0, rfl⟩
    exact headerRewrite_no_marker (h l0 hl0)
  have hpb : parse_books html = Except.error PyError.stopIteration := by
    simp only [parse_books]
    rw [hidx]
  refine ⟨hpb, ?_⟩
  unfold get_all_highlights
  rw [hpb]

/-- C2, witness: a concrete marker-free document. -/
theorem C2_missing_marker_stops_run_witness :
    (∀ line ∈ pySplitOn (str "\n") c2doc, ¬ allHLMarker <:+: line) ∧
    parse_books c2doc = Except.error PyError.stopIteration ∧
    get_all_highlights c2doc = Except.error PyError.stopIteration :=
  ⟨by decide, C2_missing_marker_stops_run c2doc (by decide)⟩

/-- A successfully built record carries the passed-in book metadata and
the highlight's `.string`, verbatim. -/
theorem mkRecord_ok {bt ba : Str} {hl : Node} {sib : Option Node} {r : Highlight}
    (h : mkRecord bt ba hl sib = Except.ok r) :
    r.book_title = bt ∧ r.book_author = ba ∧ r.text = Node.string hl := by
  cases sib with
  | none => simp [mkRecord] at h
  | some s =>
    cases s with
    | text t => simp [mkRecord] at h
    | tag n attrs cs =>
      simp only [mkRecord] at h
      split at h
      · simp at h
      · split at h
        · simp at h
        · simp only [Except.ok.injEq] at h
          rw [← h]
          exact ⟨rfl, rfl, rfl⟩

/-- The records of one book are its highlights, in order: their `text`
fields are the `.string`s of the highlight elements in document
order. -/
theorem extractRecords_text {bt ba : Str} {ps : List (Node × Option Node)}
    {l : List Highlight} (h : extractRecords bt ba ps = Except.ok l) :
    l.map Highlight.text = ps.map (fun p => Node.string p.1) := by
  induction ps generalizing l with
  | nil =>
    simp only [extractRecords, Except.ok.injEq] at h
    subst h; rfl
  | cons p ps ih =>
    simp only [extractRecords] at h
    cases hm : mkRecord bt ba p.1 p.2 with
    | error e => rw [hm] at h; simp at h
    | ok r =>
      rw [hm] at h
      cases hr : extractRecords bt ba ps with
      | error e => rw [hr] at h; simp at h
      | ok rs =>
        rw [hr] at h
        simp only [Except.ok.injEq] at h
        subst h
        simp only [List.map_cons]
        rw [(mkRecord_ok hm).2.2, ih hr]

/-- Every record of one book carries that book's computed title and
author. -/
theorem extractRecords_meta {bt ba : Str} {ps : List (Node × Option Node)}
    {l : List Highlight} (h : extractRecords bt ba ps = Except.ok l) :
    ∀ r ∈ l, r.book_title = bt ∧ r.book_author = ba := by
  induction ps generalizing l with
  | nil =>
    simp only [extractRecords, Except.ok.injEq] at h
    subst h
    intro r hr
    cases hr
  | cons p ps ih =>
    simp only [extractRecords] at h
    cases hm : mkRecord bt ba p.1 p.2 with
    | error e => rw [hm] at h; simp at h
    | ok r =>
      rw [hm] at h
      cases hr : extractRecords bt ba ps with
      | error e => rw [hr] at h; simp at h
      | ok rs =>
        rw [hr] at h
        simp only [Except.ok.injEq] at h
        subst h
        intro r2 hr2
        rcases List.mem_cons.mp hr2 with rfl | hr3
        · exact ⟨(mkRecord_ok hm).1, (mkRecord_ok hm).2.1⟩
        · exact ih hr r2 hr3

/-- A book extracted without error yields records whose `text`s are its
highlights' `.string`s in document order. -/
theorem extract_book_text {b : Node} {l : List Highlight}
    (h : extract_book b = Except.ok l) :
    l.map Highlight.text = (hlPairsNode b).map (fun p => Node.string p.1) := by
  unfold extract_book at h
  split at h
  · simp at h
  · split at h
    · simp at h
    · split at h
      · simp at h
      · split at h
        · simp at h
        · exact extractRecords_text h

/-- Any two records of one successfully extracted book carry identical
book metadata. -/
theorem extract_book_meta {b : Node} {l : List Highlight}
    (h : extract_book b = Except.ok l) :
    ∀ r ∈ l, ∀ r2 ∈ l, r.book_title = r2.book_title ∧ r.book_author = r2.book_author := by
  unfold extract_book at h
  split at h
  · simp at h
  · split at h
    · simp at h
    · split at h
      · simp at h
      · split at h
        · simp at h
        · intro r hr r2 hr2
          have h1 := extractRecords_meta h r hr
          have h2 := extractRecords_meta h r2 hr2
          exact ⟨h1.1.trans h2.1.symm, h1.2.trans h2.2.symm⟩

/-- C3 (amended): a book whose element lacks a nested title or author
element makes the whole extraction fail with `AttributeError` (the
spec's `StructureError`) as soon as that book is reached - here stated
for the first book - and no record at all is returned, in particular
none with an empty title.  The error value itself carries no position
information (see the counterexample theorem). -/
theorem C3_missing_title_or_author_fails (soup b : Node) (bs : List Node)
    (hb : findAll isBookMain soup = b :: bs)
    (hmiss : findFirst isTitleSpan b = none ∨ findFirst isAuthorSpan b = none) :
    extract_highlights soup = Except.error PyError.attributeError := by
  have hbook : extract_book b = Except.error PyError.attributeError := by
    unfold extract_book
    rcases hmiss with hm | hm
    · rw [hm]
    · split
      · rfl
      · split
        · rfl
        · split
          · rfl
          · rename_i a heq
            exact absurd (hm.symm.trans heq) (by simp)
  unfold extract_highlights
  rw [hb]
  simp [extractBooks, hbook]

/-- C3, witness: a single-book document whose book lacks a title. -/
theorem C3_missing_title_or_author_fails_witness :
    findAll isBookMain c3soup = [c3book] ∧
    findFirst isTitleSpan c3book = none ∧
    extract_highlights c3soup = Except.error PyError.attributeError :=
  ⟨rfl, rfl, C3_missing_title_or_author_fails c3soup c3book [] rfl (Or.inl rfl)⟩

/-- C3, counterexample to "identifies that book's position": a document
whose *first* book lacks a title and a document whose *second* book
lacks a title fail with the *same* error value (Python's
`AttributeError` carries no book index), so the error cannot identify
the failing book's position. -/
theorem C3_error_position_counterexample :
    extract_highlights c3docA = Except.error PyError.attributeError ∧
    extract_highlights c3docB = Except.error PyError.attributeError :=
  ⟨rfl, rfl⟩

/-- C7: the extractor emits the books' records in document order,
book-major - for a document whose books are `b1` then `b2`, the output
is `b1`'s records followed by `b2`'s, and within each book the records
follow that book's highlights in document order (their `text`s are the
highlights' `.string`s in order).  With `b1 = [h1, h2]` and
`b2 = [h3]` the output sequence is exactly `[h1, h2, h3]`. -/
theorem C7_document_order (soup b1 b2 : Node) (l1 l2 : List Highlight)
    (hb : findAll isBookMain soup = [b1, b2])
    (h1 : extract_book b1 = Except.ok l1)
    (h2 : extract_book b2 = Except.ok l2) :
    extract_highlights soup = Except.ok (l1 ++ l2) ∧
    l1.map Highlight.text = (hlPairsNode b1).map (fun p => Node.string p.1) ∧
    l2.map Highlight.text = (hlPairsNode b2).map (fun p => Node.string p.1) := by
  refine ⟨?_, extract_book_text h1, extract_book_text h2⟩
  unfold extract_highlights
  rw [hb]
  simp [extractBooks, h1, h2]

/-- C7, witness: the two-book document `B1 = [h1, h2]`, `B2 = [h3]`
yields exactly `[h1, h2, h3]`. -/
theorem C7_document_order_witness :
    findAll isBookMain c7soup = [c7b1, c7b2] ∧
    extract_book c7b1 = Except.ok [c7rec1, c7rec2] ∧
    extract_book c7b2 = Except.ok [c7rec3] ∧
    extract_highlights c7soup = Except.ok ([c7rec1, c7rec2] ++ [c7rec3]) :=
  ⟨rfl, rfl, rfl,
    (C7_document_order c7soup c7b1 c7b2 [c7rec1, c7rec2] [c7rec3] rfl rfl rfl).1⟩

/-- C10: any two records coming from the same book element carry
identical `book_title` and `book_author` strings - the metadata is
computed once per book and shared by all of that book's records. -/
theorem C10_book_metadata_shared (soup b : Node) (l : List Highlight)
    (_hb : b ∈ findAll isBookMain soup)
    (h : extract_book b = Except.ok l) :
    ∀ r ∈ l, ∀ r2 ∈ l, r.book_title = r2.book_title ∧ r.book_author = r2.book_author :=
  fun r hr r2 hr2 => extract_book_meta h r hr r2 hr2

/-- C10, witness: a book with two highlights; both records carry the
same title and author. -/
theorem C10_book_metadata_shared_witness :
    c10b ∈ findAll isBookMain c10soup ∧
    extract_book c10b = Except.ok [c10r1, c10r2] ∧
    ∀ r ∈ [c10r1, c10r2], ∀ r2 ∈ [c10r1, c10r2],
      r.book_title = r2.book_title ∧ r.book_author = r2.book_author :=
  ⟨List.mem_singleton.mpr rfl, rfl,
    C10_book_metadata_shared c10soup c10b [c10r1, c10r2] (List.mem_singleton.mpr rfl) rfl⟩

/-- C8 (amended): a missing or whitespace-only text node is not an
error - whether record construction succeeds does not depend on the
highlight element at all, and the `text` field of the record is the
highlight's `.string` stored *as-is*: the whitespace string unchanged,
or `None` when there is no text node (not the empty string). -/
theorem C8_text_passthrough (bt ba : Str) (hl hl2 : Node) (sib : Option Node)
    (r : Highlight) (hok : mkRecord bt ba hl sib = Except.ok r) :
    r.text = Node.string hl ∧
    ∃ r2, mkRecord bt ba hl2 sib = Except.ok r2 ∧ r2.text = Node.string hl2 := by
  refine ⟨(mkRecord_ok hok).2.2, ?_⟩
  cases sib with
  | none => simp [mkRecord] at hok
  | some s =>
    cases s with
    | text t => simp [mkRecord] at hok
    | tag n attrs cs =>
      simp only [mkRecord] at hok ⊢
      split at hok
      · simp at hok
      · split at hok
        · simp at hok
        · exact ⟨_, rfl, rfl⟩

/-- C8, witness: with a whitespace-only highlight the record is built
and its text is `" "`; with a no-text highlight the record is still
built and its text is `None`. -/
theorem C8_text_passthrough_witness :
    mkRecord (str "T") (str "A") c8hl (some c8sib) = Except.ok c8rec ∧
    c8rec.text = Node.string c8hl ∧
    (∃ r2, mkRecord (str "T") (str "A") c8hl2 (some c8sib) = Except.ok r2 ∧
      r2.text = Node.string c8hl2) :=
  ⟨rfl, (C8_text_passthrough (str "T") (str "A") c8hl c8hl2 (some c8sib) c8rec rfl).1,
    (C8_text_passthrough (str "T") (str "A") c8hl c8hl2 (some c8sib) c8rec rfl).2⟩

/-- C8, counterexample to "recorded as an empty string": the record of
a whitespace-only highlight is produced without failure, but its text
field is the whitespace string `" "`, not the empty string. -/
theorem C8_whitespace_text_counterexample :
    extract_highlights c8soup = Except.ok [c8rec] ∧
    c8rec.text = some (str " ") ∧
    c8rec.text ≠ some (str "") :=
  ⟨rfl, rfl, by decide⟩

/-- C9 (amended): the author field is the author text with *every*
occurrence of the substring `"by"` removed (`str.replace`), then
trimmed.  On the worked example `"by  Jane Doe "` this yields
`"Jane Doe"`; on an author name containing `"by"` it also alters the
name itself. -/
theorem C9_author_replace_all :
    extract_highlights c9jane = Except.ok [c9janeRec] ∧
    c9janeRec.book_author = str "Jane Doe" ∧
    extract_highlights c9bobby = Except.ok [c9bobbyRec] ∧
    c9bobbyRec.book_author = pyStrip (pyReplace (str "by") [] (str "by Bobby Tables")) :=
  ⟨rfl, rfl, rfl, rfl⟩

/-- C9, counterexample to "no other part of the author name is
altered": the author source text `"by Bobby Tables"` comes out as
`"Bob Tables"` - the `"by"` inside `"Bobby"` is removed too. -/
theorem C9_author_by_counterexample :
    extract_highlights c9bobby = Except.ok [c9bobbyRec] ∧
    c9bobbyRec.book_author = str "Bob Tables" ∧
    str "Bob Tables" ≠ str "Bobby Tables" :=
  ⟨rfl, rfl, by decide⟩

/-- C1, counterexample to name-based, order-independent derivation: on
the worked link the function returns `B004TP29C44063`, but with the
`asin` and `location` parameters swapped - same two named parameters,
different order - it returns `4063B004TP29C4`, a different ID. -/
theorem C1_order_dependent_counterexample :
    create_enid (str "kindle://book?action=open&asin=B004TP29C4&location=4063") =
      Except.ok (str "B004TP29C44063") ∧
    create_enid (str "kindle://book?action=open&location=4063&asin=B004TP29C4") =
      Except.ok (str "4063B004TP29C4") ∧
    str "4063B004TP29C4" ≠ str "B004TP29C44063" :=
  ⟨rfl, rfl, by decide⟩

/-- C1 (amended): the derivation is positional - it concatenates the
after-`=` parts of the *second* and *third* `&`-separated query
fields.  On the worked link (parameter order `action, asin, location`)
this returns `B004TP29C44063`; inserting an extra parameter before
`asin` shifts the extraction. -/
theorem C1_positional_derivation :
    create_enid (str "kindle://book?action=open&asin=B004TP29C4&location=4063") =
      Except.ok (str "B004TP29C44063") ∧
    create_enid (str "kindle://book?action=open&x=1&asin=B004TP29C4&location=4063") =
      Except.ok (str "1B004TP29C4") :=
  ⟨rfl, rfl⟩

/-- C4, counterexample: a link carrying *both* named parameters but
only two query fields fails (`IndexError`), and a link carrying
*neither* named parameter but three query fields succeeds - so
presence of the named `asin`/`location` parameters is neither
sufficient nor necessary for success. -/
theorem C4_named_params_counterexample :
    create_enid (str "kindle://book?asin=B004TP29C4&location=4063") =
      Except.error PyError.indexError ∧
    create_enid (str "kindle://book?a=1&b=2&c=3") = Except.ok (str "23") :=
  ⟨rfl, rfl⟩

/-- C4 (amended): derivation fails - always with `IndexError`
(`MalformedLink`) - exactly when the second or third `&`-separated
query field is missing or contains no `=`; the named parameters play
no role. -/
theorem C4_failure_iff_positional_fields_missing (huri : Str) :
    create_enid huri = Except.error PyError.indexError ↔
      ((pySplitOn (str "&") (uriQuery huri))[1]?.bind
        fun f => (pySplitOn (str "=") f)[1]?) = none ∨
      ((pySplitOn (str "&") (uriQuery huri))[2]?.bind
        fun f => (pySplitOn (str "=") f)[1]?) = none := by
  unfold create_enid
  cases h1 : (pySplitOn (str "&") (uriQuery huri))[1]? with
  | none => simp [h1]
  | some f1 =>
    cases h2 : (pySplitOn (str "=") f1)[1]? with
    | none => simp [h1, h2]
    | some asin =>
      cases h3 : (pySplitOn (str "&") (uriQuery huri))[2]? with
      | none => simp [h1, h2, h3]
      | some f2 =>
        cases h4 : (pySplitOn (str "=") f2)[1]? with
        | none => simp [h1, h2, h3, h4]
        | some loc => simp [h1, h2, h3, h4]

/-- C5: on an input whose single marker line carries *two* `'</div>'`
tokens, the normalizer removes *both* (Python's `str.replace` with no
count removes every occurrence), not exactly one - contradicting the
code's own comment "Remove the very first `</div>`". -/
theorem C5_removes_every_closing_token :
    parse_books (str "<div id=\"allHighlightedBooks\"></div></div>\n<p>x</p>") =
      Except.ok (str "<div id=\"allHighlightedBooks\"><p>x</p>") :=
  rfl

/-- C6, counterexample to normalization stability: `c6norm` is the
normalizer's own output on the worked two-book export (so it is
already normalized: highlights nested, no stray top-level closing
tag), yet normalizing it again yields `c6renorm`, whose extraction
associates highlight `h3` with book `T1` as well - the pair
`(T1, h3)` appears after re-normalization but not before. -/
theorem C6_renormalize_counterexample :
    parse_books c6raw = Except.ok c6norm ∧
    parse_books c6norm = Except.ok c6renorm ∧
    extract_highlights (parseHTML c6norm) = Except.ok [c6rec1, c6rec2, c6rec3] ∧
    extract_highlights (parseHTML c6renorm) =
      Except.ok [c6rec1, c6rec2, c6rec3T1, c6rec3] ∧
    (str "T1", some (str "h3")) ∉
      [c6rec1, c6rec2, c6rec3].map (fun r => (r.book_title, r.text)) ∧
    (str "T1", some (str "h3")) ∈
      [c6rec1, c6rec2, c6rec3T1, c6rec3].map (fun r => (r.book_title, r.text)) := by
  decide!

/-- C6 (amended): the normalizer is *not* idempotent with respect to
highlight-to-book assignment.  Its output contains no newline, so on a
second pass the whole document is one line: the header rewrite wraps
it and the marker-line cleanup then removes *every* `'</div>'` token
(the re-normalized output contains none), which re-nests later books
inside earlier ones - on the worked example the second book's
highlight is also emitted under the first book. -/
theorem C6_renormalize_reassigns :
    containsSub (str "\n") c6norm = false ∧
    parse_books c6norm = Except.ok c6renorm ∧
    containsSub divClose c6renorm = false ∧
    extract_highlights (parseHTML c6norm) = Except.ok [c6rec1, c6rec2, c6rec3] ∧
    extract_highlights (parseHTML c6renorm) =
      Except.ok [c6rec1, c6rec2, c6rec3T1, c6rec3] := by
  decide!

/-- C4, witness: the characterization applied at the two-field link
with both named parameters present. -/
theorem C4_failure_iff_positional_fields_missing_witness :
    create_enid (str "kindle://book?asin=B004TP29C4&location=4063") =
      Except.error PyError.indexError :=
  (C4_failure_iff_positional_fields_missing
    (str "kindle://book?asin=B004TP29C4&location=4063")).mpr (by decide)
